import Mathlib

/-!
Shallow embedding of the procure-to-pay client (React/TypeScript frontend).

The embedding covers the data model (`src/frontend/src/types/index.ts`), the
API client (`src/unnamed/part_000`, the `lib/api` module), and the view-level
gating and filtering logic of `Layout.tsx`, `RequestDetail.tsx`,
`RequestsList.tsx`, `NewRequest.tsx` and `Dashboard.tsx`.

JavaScript semantics that the code relies on are modelled explicitly:
string inclusion (`String.prototype.includes`) as substring containment,
truthiness of strings (empty string is falsy) and of parsed JSON values,
and `localStorage` as an explicit `Option String` state threaded through
the functions that read or write the auth token.
-/

namespace P2P

/-- `String.prototype.includes`: `strIncludes s pat` is true iff `pat` occurs
as a contiguous substring of `s`. -/
def strIncludes (s pat : String) : Bool :=
  decide (pat.data <:+: s.data)

/-- JS truthiness of an optional string (a `string | null | undefined` value):
truthy iff present and non-empty. Used for `if (auth && token)`,
`!request.receipt`, `error.message || ...`. -/
def strOptTruthy : Option String → Bool
  | none => false
  | some s => s != ""

/-! ## Data model (`types/index.ts`)

`role` and `status` are kept as strings: the client compares them with `===`
and `String.prototype.includes`, and runtime values come from server JSON, so
the string operations — not the TypeScript union types — are the semantics. -/

structure User where
  id : String
  email : String
  name : String
  role : String
deriving DecidableEq, Repr

structure Approval where
  id : String
  request_id : String
  approver_id : String
  approver_name : String
  approver_level : Nat
  status : String
  comment : Option String
  created_at : String
deriving DecidableEq, Repr

structure PurchaseRequest where
  id : String
  title : String
  description : String
  amount : Rat
  status : String
  created_by : String
  created_by_name : Option String
  created_at : String
  updated_at : String
  proforma : Option String
  purchase_order : Option String
  receipt : Option String
  approvals : List Approval
deriving DecidableEq, Repr

/-! ## Parsed JSON values

`response.json()` yields an arbitrary JSON value; the API client reads the
`message` and `token` fields from it and otherwise passes it through. -/

inductive JsonVal where
  | jnull
  | jbool (b : Bool)
  | jnum (n : Int)
  | jstr (s : String)
  | jarr (elems : List JsonVal)
  | jobj (fields : List (String × JsonVal))

/-- Field access `obj.field` on a parsed JSON value: defined only on objects. -/
def getField : JsonVal → String → Option JsonVal
  | .jobj fields, k => fields.lookup k
  | _, _ => none

/-- JS truthiness of a JSON value (`if (data.token)`, `error.message || ...`). -/
def jsTruthy : JsonVal → Bool
  | .jnull => false
  | .jbool b => b
  | .jnum n => n != 0
  | .jstr s => s != ""
  | .jarr _ => true
  | .jobj _ => true

mutual

/-- JS string coercion `String(v)` of a JSON value, as applied by
`new Error(x)` and `localStorage.setItem`. -/
def jsToString : JsonVal → String
  | .jnull => "null"
  | .jbool b => cond b "true" "false"
  | .jnum n => toString n
  | .jstr s => s
  | .jarr elems => jsToStringList elems
  | .jobj _ => "[object Object]"

/-- Array stringification: elements joined by commas. -/
def jsToStringList : List JsonVal → String
  | [] => ""
  | [v] => jsToString v
  | v :: rest => jsToString v ++ "," ++ jsToStringList rest

end

/-! ## API client (`src/unnamed/part_000`)

`localStorage` is modelled as an explicit `Option String` (the stored auth
token); an HTTP exchange is modelled by the response the server hands back,
with `jsonBody = none` when the body is not parseable JSON. -/

/-- The default `API_URL`. -/
def apiUrl : String := "http://localhost:8000/api"

/-- An HTTP response as the client observes it: `ok` is `response.ok`
(success status), `status` is the numeric status code, `jsonBody` is the
result of `response.json()` (`none` when the body is not valid JSON). -/
structure HttpResponse where
  ok : Bool
  status : Nat
  jsonBody : Option JsonVal

/-- Outcome of `apiRequest`: the returned parsed body, a thrown `Error` with
its message, or the rejection of `response.json()` on a success response whose
body is not JSON. -/
inductive ApiResult where
  | success (body : JsonVal)
  | apiError (message : String)
  | parseFailure

/-- The Authorization header attached by `apiRequest`:
`if (auth && token) headers["Authorization"] = `Bearer ${token}``. The header
is present exactly when `auth` is enabled and the stored token is truthy. -/
def authHeader (auth : Bool) (token : Option String) : Option String :=
  match token with
  | some t => if auth && t != "" then some ("Bearer " ++ t) else none
  | none => none

/-- The outgoing HTTP request built by `apiRequest` before `fetch` is called. -/
structure OutgoingRequest where
  url : String
  authorization : Option String
deriving DecidableEq, Repr

/-- `apiRequest` always calls `fetch` on `API_URL + endpoint`, with the
Authorization header added only when `auth` is enabled and a token is stored;
a missing token does not abort the request. -/
def buildRequest (endpoint : String) (auth : Bool) (token : Option String) :
    OutgoingRequest :=
  { url := apiUrl ++ endpoint, authorization := authHeader auth token }

/-- The message of the `Error` thrown by `apiRequest` on `!response.ok`:
`error.message || `API Error: ${response.status}`` where `error` is the parsed
body, or `{}` when the body is not JSON. -/
def errorMessage (status : Nat) (body : Option JsonVal) : String :=
  let fallback := "API Error: " ++ toString status
  match body with
  | none => fallback
  | some b =>
    match getField b "message" with
    | none => fallback
    | some v => if jsTruthy v then jsToString v else fallback

/-- `apiRequest` applied to the response of the exchange: on success returns
the parsed JSON body, on non-success throws an `Error` carrying
`errorMessage`. -/
def apiRequest (resp : HttpResponse) : ApiResult :=
  if resp.ok then
    match resp.jsonBody with
    | some b => .success b
    | none => .parseFailure
  else
    .apiError (errorMessage resp.status resp.jsonBody)

/-- `authAPI.login`: runs `apiRequest` (with `auth: false`); on success, if
`data.token` is truthy it is stored via `setAuthToken`; the thrown error of a
failed request propagates and the store is untouched. Returns the result
together with the token store after the call. -/
def login (store : Option String) (resp : HttpResponse) :
    ApiResult × Option String :=
  match apiRequest resp with
  | .success data =>
    match getField data "token" with
    | some v =>
      if jsTruthy v then (.success data, some (jsToString v))
      else (.success data, store)
    | none => (.success data, store)
  | other => (other, store)

/-- A response to `GET /requests/` after parsing: either a raw array of
requests or a paginated envelope whose `results` field may be absent. -/
inductive ListResponse where
  | raw (items : List PurchaseRequest)
  | envelope (results : Option (List PurchaseRequest))
deriving DecidableEq, Repr

/-- `requestsAPI.list` normalization: `Array.isArray(data) ? data :
data.results ?? []`. -/
def listNormalize : ListResponse → List PurchaseRequest
  | .raw items => items
  | .envelope (some rs) => rs
  | .envelope none => []

/-! ## Role-gated controls (`RequestDetail.tsx`)

The detail view renders the approval card iff `canApprove` and the receipt
card iff `canSubmitReceipt`. `user` is optional (`user?.`): with no user both
guards are falsy. -/

/-- `canApprove = user?.role.includes("approver") && request.status ===
"pending"`. -/
def canApprove (user : Option User) (req : PurchaseRequest) : Bool :=
  match user with
  | some u => strIncludes u.role "approver" && req.status == "pending"
  | none => false

/-- `canSubmitReceipt = user?.role === "staff" && request.created_by ===
user?.id && request.status === "approved" && !request.receipt`. -/
def canSubmitReceipt (user : Option User) (req : PurchaseRequest) : Bool :=
  match user with
  | some u =>
    u.role == "staff" && req.created_by == u.id &&
      req.status == "approved" && !(strOptTruthy req.receipt)
  | none => false

/-! ## Navigation (`Layout.tsx`) and the New Request entry points -/

/-- A sidebar navigation entry; `toPath` embeds the `to` route of the source
(`to` is a reserved token here). -/
structure NavItem where
  label : String
  toPath : String
  roles : List String
deriving DecidableEq, Repr

/-- The `navItems` array of `Layout.tsx`. -/
def navItems : List NavItem :=
  [ { label := "Dashboard", toPath := "/dashboard",
      roles := ["staff", "approver-level-1", "approver-level-2", "finance"] },
    { label := "Requests", toPath := "/requests",
      roles := ["staff", "approver-level-1", "approver-level-2", "finance"] },
    { label := "New Request", toPath := "/requests/new", roles := ["staff"] } ]

/-- The sidebar items actually rendered:
`navItems.filter(item => user && item.roles.includes(user.role))`. -/
def renderedNavItems (user : Option User) : List NavItem :=
  navItems.filter fun item =>
    match user with
    | some u => item.roles.contains u.role
    | none => false

/-- The "New Request" button guard `user?.role === "staff"` appearing in both
`Dashboard.tsx` and `RequestsList.tsx`. -/
def newRequestButtonShown (user : Option User) : Bool :=
  match user with
  | some u => u.role == "staff"
  | none => false

/-! ## Request creation (`NewRequest.tsx`) -/

/-- A selected file, opaque except for its name. -/
structure UploadedFile where
  name : String
deriving DecidableEq, Repr

/-- The component state of the creation form: the three text fields plus the
optionally attached proforma file. -/
structure NewRequestForm where
  title : String
  description : String
  amount : String
  proforma : Option UploadedFile
deriving DecidableEq, Repr

/-- What a run of `handleSubmit` does before any navigation: either it stops
client-side with a toast (no HTTP request is issued), or it sends the
multipart `POST /requests/` with the four form fields. -/
inductive SubmitOutcome where
  | blocked (toastTitle : String) (toastVariant : String)
  | sendCreate (title description amount : String) (proforma : UploadedFile)
deriving DecidableEq, Repr

/-- `handleSubmit` of `NewRequest.tsx`: if no proforma is attached it shows a
destructive "Missing proforma" toast and returns before building the
`FormData`; otherwise it sends the create request. The component reads no
user or role anywhere in lines 19–69, so the outcome is a function of the
form state alone. The form fields are returned unchanged in both cases. -/
def handleSubmit (form : NewRequestForm) : SubmitOutcome × NewRequestForm :=
  match form.proforma with
  | none => (.blocked "Missing proforma" "destructive", form)
  | some p =>
    (.sendCreate form.title form.description form.amount p, form)

/-- `NewRequest.tsx` renders its form for whatever user is present: the
component contains no role condition, so reachability of the submit action is
not restricted by role inside the component. -/
def newRequestFormRendered (_user : Option User) : Bool := true

/-! ## List filtering (`RequestsList.tsx`) -/

/-- The search conjunct of the list filter:
`request.title.toLowerCase().includes(searchTerm.toLowerCase()) ||
request.description.toLowerCase().includes(searchTerm.toLowerCase())`. -/
def matchesSearch (term : String) (r : PurchaseRequest) : Bool :=
  strIncludes r.title.toLower term.toLower ||
    strIncludes r.description.toLower term.toLower

/-- The status conjunct of the list filter:
`statusFilter === "all" || request.status === statusFilter`. -/
def matchesStatus (filter : String) (r : PurchaseRequest) : Bool :=
  filter == "all" || r.status == filter

/-- `filteredRequests` of `RequestsList.tsx`. -/
def filteredRequests (requests : List PurchaseRequest) (term filter : String) :
    List PurchaseRequest :=
  requests.filter fun r => matchesSearch term r && matchesStatus filter r

/-! ## Dashboard statistics (`Dashboard.tsx`) -/

structure DashboardStats where
  total : Nat
  pending : Nat
  approved : Nat
  rejected : Nat
deriving DecidableEq, Repr

/-- The `stats` memo of `Dashboard.tsx`. -/
def stats (requests : List PurchaseRequest) : DashboardStats :=
  { total := requests.length
    pending := (requests.filter fun r => r.status == "pending").length
    approved := (requests.filter fun r => r.status == "approved").length
    rejected := (requests.filter fun r => r.status == "rejected").length }

/-- `approvalRate = stats.total ? Math.round((stats.approved / stats.total) *
100) : 0`. `Math.round x = ⌊x + 1/2⌋` on the non-negative values arising
here, which is Mathlib's `round`. -/
def approvalRate (s : DashboardStats) : Int :=
  if s.total != 0 then round ((s.approved : ℚ) / (s.total : ℚ) * 100) else 0

/-! ## Concrete demonstration values used by witnesses -/

def demoStaff : User :=
  { id := "u1", email := "s@x.io", name := "Sam Staff", role := "staff" }

def demoApprover : User :=
  { id := "u2", email := "a@x.io", name := "Ada Approver",
    role := "approver-level-1" }

def demoFinance : User :=
  { id := "u3", email := "f@x.io", name := "Fay Finance", role := "finance" }

def demoRequest (status : String) (receipt : Option String) :
    PurchaseRequest :=
  { id := "r1", title := "Laptop", description := "Dev laptop", amount := 1200,
    status := status, created_by := "u1", created_by_name := some "Sam Staff",
    created_at := "2024-01-01", updated_at := "2024-01-02",
    proforma := some "/files/proforma.pdf", purchase_order := none,
    receipt := receipt, approvals := [] }

def demoFile : UploadedFile := { name := "proforma.pdf" }

def demoForm (proforma : Option UploadedFile) : NewRequestForm :=
  { title := "Laptop", description := "Dev laptop", amount := "1200",
    proforma := proforma }

/-! ## Shared lemmas -/

/-- The dashboard counts partition the request list: when every status is one
of the three known ones, the list's length is the sum of the three filtered
lengths. -/
theorem length_filter_three_statuses (requests : List PurchaseRequest)
    (h : ∀ r ∈ requests,
      r.status = "pending" ∨ r.status = "approved" ∨ r.status = "rejected") :
    requests.length =
      (requests.filter fun r => r.status == "pending").length +
        (requests.filter fun r => r.status == "approved").length +
        (requests.filter fun r => r.status == "rejected").length := by
  induction requests with
  | nil => rfl
  | cons r rest ih =>
    have hr := h r (List.mem_cons_self r rest)
    have htail := ih fun x hx => h x (List.mem_cons_of_mem r hx)
    have hpa : ("pending" : String) ≠ "approved" := by decide
    have hpr : ("pending" : String) ≠ "rejected" := by decide
    have hap : ("approved" : String) ≠ "pending" := by decide
    have har : ("approved" : String) ≠ "rejected" := by decide
    have hrp : ("rejected" : String) ≠ "pending" := by decide
    have hra : ("rejected" : String) ≠ "approved" := by decide
    rcases hr with h1 | h1 | h1 <;>
      simp [List.filter_cons, h1, hpa, hpr, hap, har, hrp, hra] <;> omega

/-! ## Claims -/

/-- C1: the approve/reject controls of the detail view are rendered iff the
user's role string contains "approver" and the request's status is "pending";
in particular a request with status "rejected" or "approved" never shows them,
whatever the role. -/
theorem C1_approve_controls_gating (u : User) (req : PurchaseRequest) :
    (canApprove (some u) req = true ↔
      strIncludes u.role "approver" = true ∧ req.status = "pending")
    ∧ ((req.status = "rejected" ∨ req.status = "approved") →
      canApprove (some u) req = false) := by
  constructor
  · simp [canApprove]
  · rintro (h | h) <;> simp [canApprove, h]

/-- C2 counterexample: the claim "the creation form's submit action cannot be
triggered by a non-staff user" fails at a concrete input: for the finance
user, the `NewRequest` component renders its form (the component checks no
role), and triggering `handleSubmit` with a proforma attached sends the
create request. -/
theorem C2_nonstaff_submit_counterexample :
    demoFinance.role ≠ "staff"
    ∧ newRequestFormRendered (some demoFinance) = true
    ∧ (handleSubmit (demoForm (some demoFile))).1 =
        SubmitOutcome.sendCreate "Laptop" "Dev laptop" "1200" demoFile :=
  ⟨by decide, rfl, rfl⟩

/-- C2 (amended): for every user whose role is not "staff", no navigation item
or button leading to the creation form is rendered (the sidebar entry and the
"New Request" buttons of the dashboard and list views are all gated to role
"staff"); the creation form component itself performs no role check, so once
the form is reached, its submit action proceeds for any user as soon as a
proforma is attached. -/
theorem C2_nonstaff_creation_gating (u : User) (h : u.role ≠ "staff") :
    (∀ item ∈ renderedNavItems (some u), item.toPath ≠ "/requests/new")
    ∧ newRequestButtonShown (some u) = false
    ∧ (∀ form p, form.proforma = some p →
        (handleSubmit form).1 =
          SubmitOutcome.sendCreate form.title form.description form.amount p) := by
  refine ⟨?_, ?_, ?_⟩
  · intro item hmem
    simp only [renderedNavItems] at hmem
    obtain ⟨hin, hp⟩ := List.mem_filter.mp hmem
    simp only [navItems, List.mem_cons, List.not_mem_nil, or_false] at hin
    rcases hin with h1 | h1 | h1 <;> subst h1
    · decide
    · decide
    · exfalso
      simp only [List.contains_cons, List.contains_nil, Bool.or_false,
        beq_iff_eq] at hp
      exact h hp
  · exact beq_eq_false_iff_ne.mpr h
  · intro form p hp
    simp [handleSubmit, hp]

/-- C2 witness: the amended claim at the concrete finance user. -/
theorem C2_nonstaff_creation_gating_witness :
    newRequestButtonShown (some demoFinance) = false :=
  (C2_nonstaff_creation_gating demoFinance (by decide)).2.1

/-- C3: the receipt-submission control is rendered iff the role is "staff",
the user created the request, the status is "approved" and the receipt link is
absent (or the empty string, which JS treats as absent); in particular a
request with status "approved" and a non-empty receipt link never shows it,
whatever the role. -/
theorem C3_receipt_control_gating (u : User) (req : PurchaseRequest) :
    (canSubmitReceipt (some u) req = true ↔
      u.role = "staff" ∧ req.created_by = u.id ∧ req.status = "approved" ∧
        (req.receipt = none ∨ req.receipt = some ""))
    ∧ (∀ s, req.status = "approved" → req.receipt = some s → s ≠ "" →
      canSubmitReceipt (some u) req = false) := by
  constructor
  · cases hr : req.receipt with
    | none => simp [canSubmitReceipt, strOptTruthy, hr, and_assoc]
    | some t => simp [canSubmitReceipt, strOptTruthy, hr, and_assoc]
  · intro s _ hrec hne
    simp [canSubmitReceipt, strOptTruthy, hrec, hne]

/-- C4: membership in the filtered list of `RequestsList.tsx` is exactly
membership in the fetched list, case-insensitive containment of the search
term in the title or the description, and agreement with the status filter
(every status passing when the filter is "all"). -/
theorem C4_filtered_requests_membership (requests : List PurchaseRequest)
    (term filter : String) (r : PurchaseRequest) :
    r ∈ filteredRequests requests term filter ↔
      r ∈ requests ∧
        (strIncludes r.title.toLower term.toLower = true ∨
          strIncludes r.description.toLower term.toLower = true) ∧
        (filter = "all" ∨ r.status = filter) := by
  simp [filteredRequests, List.mem_filter, matchesSearch, matchesStatus]

/-- C5: `requestsAPI.list` returns a raw-array response as is, and returns the
`results` field of a paginated envelope that carries one. -/
theorem C5_list_normalization (items results : List PurchaseRequest) :
    listNormalize (.raw items) = items ∧
      listNormalize (.envelope (some results)) = results :=
  ⟨rfl, rfl⟩

/-- C6: on a non-success response `apiRequest` throws the server-provided
`message` when the body is JSON with a non-empty string message, and the
status-derived "API Error: <status>" when the body is not JSON, has no
`message` field, or has an empty one; on a success response with a JSON body
it returns the parsed body. -/
theorem C6_api_error_surface (resp : HttpResponse) :
    (∀ b m, resp.ok = false → resp.jsonBody = some b →
        getField b "message" = some (.jstr m) → m ≠ "" →
        apiRequest resp = .apiError m)
    ∧ (resp.ok = false → resp.jsonBody = none →
        apiRequest resp = .apiError ("API Error: " ++ toString resp.status))
    ∧ (∀ b, resp.ok = false → resp.jsonBody = some b →
        getField b "message" = none →
        apiRequest resp = .apiError ("API Error: " ++ toString resp.status))
    ∧ (∀ b, resp.ok = false → resp.jsonBody = some b →
        getField b "message" = some (.jstr "") →
        apiRequest resp = .apiError ("API Error: " ++ toString resp.status))
    ∧ (∀ b, resp.ok = true → resp.jsonBody = some b →
        apiRequest resp = .success b) := by
  refine ⟨?_, ?_, ?_, ?_, ?_⟩
  · intro b m hok hb hm hne
    simp [apiRequest, errorMessage, jsTruthy, jsToString, hok, hb, hm, hne]
  · intro hok hb
    simp [apiRequest, errorMessage, hok, hb]
  · intro b hok hb hm
    simp [apiRequest, errorMessage, hok, hb, hm]
  · intro b hok hb hm
    simp [apiRequest, errorMessage, jsTruthy, hok, hb, hm]
  · intro b hok hb
    simp [apiRequest, hok, hb]

/-- C7 counterexample: the claim's "success with a token field persists the
token" fails at a success response whose token field is the empty string: the
response succeeds and carries a `token` field, yet `if (data.token)` is falsy
and nothing is stored. -/
theorem C7_empty_token_not_persisted_counterexample :
    (login none
        ⟨true, 200, some (.jobj [("token", .jstr "")])⟩).2 = none ∧
      (login none
          ⟨true, 200, some (.jobj [("token", .jstr "")])⟩).1 =
        .success (.jobj [("token", .jstr "")]) :=
  ⟨rfl, rfl⟩

/-- C7 (amended): a successful login whose body carries a non-empty string
`token` (the truthy case of `if (data.token)`) stores it, and a subsequent
call with auth enabled attaches it as a Bearer Authorization header; a failed
login leaves the stored token unchanged (so none is stored when none was) and
surfaces the server-provided message. -/
theorem C7_login_token_flow (store : Option String) (resp : HttpResponse) :
    (∀ b t, resp.ok = true → resp.jsonBody = some b →
        getField b "token" = some (.jstr t) → t ≠ "" →
        login store resp = (.success b, some t) ∧
          (buildRequest "/auth/user/" true (some t)).authorization =
            some ("Bearer " ++ t))
    ∧ (resp.ok = false →
        (login store resp).2 = store ∧
          ∀ b m, resp.jsonBody = some b →
            getField b "message" = some (.jstr m) → m ≠ "" →
            (login store resp).1 = .apiError m) := by
  constructor
  · intro b t hok hb ht hne
    constructor
    · simp [login, apiRequest, hok, hb, ht, jsTruthy, jsToString, hne]
    · simp [buildRequest, authHeader, hne]
  · intro hok
    constructor
    · simp [login, apiRequest, hok]
    · intro b m hb hm hne
      simp [login, apiRequest, errorMessage, jsTruthy, jsToString,
        hok, hb, hm, hne]

/-- C8: submitting the creation form with no proforma attached is stopped
client-side: `handleSubmit` returns (no `sendCreate`, hence no HTTP request)
with a destructive "Missing proforma" toast, and the form fields are
unchanged. -/
theorem C8_missing_proforma_blocked (form : NewRequestForm)
    (h : form.proforma = none) :
    handleSubmit form =
      (.blocked "Missing proforma" "destructive", form) := by
  simp [handleSubmit, h]

/-- C8 witness: the concrete form with no proforma. -/
theorem C8_missing_proforma_blocked_witness :
    handleSubmit (demoForm none) =
      (.blocked "Missing proforma" "destructive", demoForm none) :=
  C8_missing_proforma_blocked (demoForm none) rfl

/-- C9 counterexample: the claim's "the Authorization header is present iff
auth is enabled and a token is stored" fails at the stored empty-string token:
a token is stored (`isSome`), auth is enabled, yet `if (auth && token)` is
falsy and the header is omitted. -/
theorem C9_auth_header_counterexample :
    (some "" : Option String).isSome = true ∧
      (buildRequest "/requests/" true (some "")).authorization = none :=
  ⟨rfl, rfl⟩

/-- C9 (amended): `apiRequest` builds the outgoing request in every case —
with auth enabled and no stored token the request still goes out, just without
the header — and the Authorization header is present iff auth is enabled and
the stored token is non-empty (JS truthiness treats a stored empty string as
no token). -/
theorem C9_auth_header_presence (endpoint : String) (auth : Bool)
    (token : Option String) :
    ((buildRequest endpoint auth none).authorization = none)
    ∧ ((buildRequest endpoint auth token).url = apiUrl ++ endpoint)
    ∧ ((buildRequest endpoint auth token).authorization ≠ none ↔
        (auth = true ∧ ∃ t, token = some t ∧ t ≠ "")) := by
  refine ⟨rfl, rfl, ?_⟩
  cases token with
  | none => simp [buildRequest, authHeader]
  | some t =>
    by_cases ht : t = "" <;> cases auth <;>
      simp [buildRequest, authHeader, ht]

/-- C10: when every fetched status lies in {pending, approved, rejected}, the
dashboard's total equals pending + approved + rejected, and the approval rate
is `round(approved / total * 100)` for non-zero total and 0 for an empty list
(the guarded branch never divides by zero). -/
theorem C10_dashboard_stats (requests : List PurchaseRequest)
    (h : ∀ r ∈ requests,
      r.status = "pending" ∨ r.status = "approved" ∨ r.status = "rejected") :
    ((stats requests).total =
      (stats requests).pending + (stats requests).approved +
        (stats requests).rejected)
    ∧ ((stats requests).total ≠ 0 →
        approvalRate (stats requests) =
          round ((((stats requests).approved : ℚ) /
            ((stats requests).total : ℚ)) * 100))
    ∧ ((stats requests).total = 0 → approvalRate (stats requests) = 0) := by
  refine ⟨length_filter_three_statuses requests h, ?_, ?_⟩
  · intro hne
    simp [approvalRate, hne]
  · intro hz
    simp [approvalRate, hz]

/-- C10 witness: the dashboard counts at a concrete one-request list. -/
theorem C10_dashboard_stats_witness :
    (stats [demoRequest "approved" none]).total =
      (stats [demoRequest "approved" none]).pending +
        (stats [demoRequest "approved" none]).approved +
        (stats [demoRequest "approved" none]).rejected :=
  (C10_dashboard_stats [demoRequest "approved" none]
    (by
      intro r hr
      simp only [List.mem_singleton] at hr
      subst hr
      exact Or.inr (Or.inl rfl))).1

end P2P
